import Mathlib

/-!
Shallow embedding of the eyetribe streaming client (Go package eyetribe).
Conventions of the embedding:
* float64 coordinates are modelled as exact rationals;
* time.Time values and Durations are modelled as integer milliseconds,
  with t1.Sub(t2) becoming t1 - t2 and time.Now() passed in as a parameter;
* the container/list FrameList is modelled as a Lean list whose entries are
  Option Frame, a none entry standing for a nil *Frame pointer;
* Go maps that are only read at fixed string keys are modelled as association
  lists with List.lookup; map[string]bool results are modelled as functions
  String -> Option Bool (absent key = none);
* unchecked Go type assertions and nil-pointer dereferences, which abort the
  program at runtime, are modelled as explicit outcome constructors;
* JSON numeric values are modelled as Int: the device reports integral
  values, on which the float64 to int64 truncation performed by the source
  is the identity.
-/

namespace EyeTribe

/-- A 2-D gaze coordinate (struct Point, float64 fields modelled as rationals). -/
structure Point where
  x : ℚ
  y : ℚ
deriving Repr, DecidableEq

/-- Per-eye measurement inside a frame (struct EyeData). -/
structure EyeData where
  raw : Option Point := none
  avg : Option Point := none
  psize : ℚ := 0
  pcenter : Option Point := none
deriving Repr, DecidableEq

/-- One eye-tracking sample (struct Frame). goTime is stamped locally on
arrival and modelled as integer milliseconds. -/
structure Frame where
  timestamp : String := ""
  time : ℚ := 0
  fix : Bool := false
  state : Int := 0
  raw : Option Point := none
  avg : Option Point := none
  leftEye : Option EyeData := none
  rightEye : Option EyeData := none
  goTime : Int := 0
deriving Repr, DecidableEq

/-- A buffer slot: the Go list stores *Frame, which can be nil. -/
abbrev OFrame := Option Frame

/-- A detected fixation: coordinate and time (struct FixateData). -/
structure FixateData where
  x : ℚ
  y : ℚ
  goTime : Int
deriving Repr, DecidableEq

/-- A named target rectangle (struct EyeTrackCheckPoint). -/
structure EyeTrackCheckPoint where
  x : ℚ
  y : ℚ
  width : ℚ
  height : ℚ
  name : String
deriving Repr, DecidableEq

/-- The region-check result map (type EyeTrackCheckResult map[string]bool),
modelled as a partial function from region names to booleans. -/
abbrev EyeTrackCheckResult := String → Option Bool

/-- The empty result map produced by make(EyeTrackCheckResult). -/
def emptyCheckResult : EyeTrackCheckResult := fun _ => none

/-- AddOneFrame: append a frame to the bounded buffer, evicting the front
element when the length has reached numFrames. When the buffer is empty and
numFrames is not positive the source calls list.Remove(list.Front()) on a nil
element, a nil dereference, modelled as the none outcome. -/
def AddOneFrame (frame : OFrame) (buf : List OFrame) (numFrames : Int) : Option (List OFrame) :=
  if (buf.length : Int) ≥ numFrames then
    match buf with
    | [] => none
    | _ :: t => some (t ++ [frame])
  else
    some (buf ++ [frame])

/-- Repeated ingestion through AddOneFrame, stopping on the nil-dereference
outcome; models a sequence of appends into the bounded buffer. -/
def pushAllFrames (n : Int) : List OFrame → List OFrame → Option (List OFrame)
  | [], buf => some buf
  | f :: rest, buf =>
    match AddOneFrame f buf n with
    | none => none
    | some b => pushAllFrames n rest b

/-- One frame message from the device (struct OneFrameMessage). The values
map holds *Frame pointers, so a present key may still carry a nil pointer. -/
structure OneFrameMessage where
  category : String := ""
  request : String := ""
  statusCode : Int := 0
  values : List (String × Option Frame) := []
deriving Repr, DecidableEq

/-- Outcome of PullOneFrame: a frame pointer (possibly nil), a fatal decode
error, or the runtime fault from writing GoTime through a nil *Frame. -/
inductive PullResult where
  | frame (f : OFrame)
  | decodeErr
  | nilFrameDeref
deriving Repr, DecidableEq

/-- PullOneFrame: decode one message and classify it. A decode error is
fatal; a non-success status code, a heartbeat echo, or a missing frame field
yields a nil frame pointer; on a genuine frame the local clock is stamped
into GoTime. A present frame key holding a nil pointer makes the source
write through that nil pointer, a runtime fault. -/
def PullOneFrame (now : Int) (msg : Except Unit OneFrameMessage) : PullResult :=
  match msg with
  | .error _ => .decodeErr
  | .ok r =>
    if r.statusCode ≠ 200 then .frame none
    else if r.category = "heartbeat" then .frame none
    else
      match r.values.lookup "frame" with
      | none => .frame none
      | some none => .nilFrameDeref
      | some (some fr) => .frame (some { fr with goTime := now })

/-- Outcome of one iteration of the ingestion loop body. -/
inductive IngestOutcome where
  | ok (buf : List OFrame)
  | decodeErr
  | nilFrameDeref
  | emptyRemove
deriving Repr, DecidableEq

/-- One iteration of the ingestion loop in StartPullFrameTask: pull one
message, then hand whatever frame pointer came back (nil included) to
AddOneFrame. A decode error terminates the task with the buffer untouched. -/
def ingestStep (now numFrames : Int) (msg : Except Unit OneFrameMessage)
    (buf : List OFrame) : IngestOutcome :=
  match PullOneFrame now msg with
  | .decodeErr => .decodeErr
  | .nilFrameDeref => .nilFrameDeref
  | .frame fr =>
    match AddOneFrame fr buf numFrames with
    | none => .emptyRemove
    | some b => .ok b

/-- The mutable local state threaded through the loop of
GetFixationDataList, one field per local variable of the source. -/
structure DetState where
  result : List FixateData
  prevX : ℚ
  prevY : ℚ
  prevTime : Int
  curTime : Int
  checkTime : Int
  avgX : ℚ
  avgY : ℚ
  fixateCount : Nat
deriving Repr, DecidableEq

/-- The body of the frame loop of GetFixationDataList: skip nil frames,
frames with a nil Avg, and sentinel frames; otherwise either break the
cluster (emitting an event when the deadline passed and the count exceeds
one) or fold the point with the exponential weight alpha. -/
def fixationLoopStep (minMsec : Int) (distance2 : ℚ) (st : DetState) (entry : OFrame) : DetState :=
  match entry with
  | none => st
  | some frame =>
    match frame.avg with
    | none => st
    | some avg =>
      if avg.x ≤ 0 ∧ avg.y ≤ 0 then st
      else
        let X := avg.x
        let Y := avg.y
        let t := frame.goTime
        let xx := st.prevX - X
        let yy := st.prevY - Y
        if distance2 < xx * xx + yy * yy then
          let res :=
            if st.checkTime - t < 0 ∧ st.fixateCount > 1 then
              st.result ++ [⟨st.avgX, st.avgY, st.prevTime⟩]
            else st.result
          { result := res, prevX := X, prevY := Y, prevTime := t,
            curTime := st.curTime, checkTime := t + minMsec,
            avgX := X, avgY := Y, fixateCount := 0 }
        else
          let cnt := st.fixateCount + 1
          let alpha : ℚ := 1 / (1 + (cnt : ℚ))
          let a := 1 - alpha
          let b := alpha
          { st with
            fixateCount := cnt, curTime := t,
            avgX := a * st.avgX + b * st.prevX,
            avgY := a * st.avgY + b * st.prevY }

/-- The loop body that claim C3 describes, written from the words of the
spec and NOT from the source, for comparison against fixationLoopStep: it
is identical except that after a fold the reference point advances to the
current frame, so the squared distance is measured to the immediately
preceding valid frame rather than to whatever point started the cluster. -/
def fixationLoopStepSpecPrevFrame (minMsec : Int) (distance2 : ℚ) (st : DetState) (entry : OFrame) : DetState :=
  match entry with
  | none => st
  | some frame =>
    match frame.avg with
    | none => st
    | some avg =>
      if avg.x ≤ 0 ∧ avg.y ≤ 0 then st
      else
        let X := avg.x
        let Y := avg.y
        let t := frame.goTime
        let xx := st.prevX - X
        let yy := st.prevY - Y
        if distance2 < xx * xx + yy * yy then
          let res :=
            if st.checkTime - t < 0 ∧ st.fixateCount > 1 then
              st.result ++ [⟨st.avgX, st.avgY, st.prevTime⟩]
            else st.result
          { result := res, prevX := X, prevY := Y, prevTime := t,
            curTime := st.curTime, checkTime := t + minMsec,
            avgX := X, avgY := Y, fixateCount := 0 }
        else
          let cnt := st.fixateCount + 1
          let alpha : ℚ := 1 / (1 + (cnt : ℚ))
          let a := 1 - alpha
          let b := alpha
          { st with
            fixateCount := cnt, curTime := t,
            avgX := a * st.avgX + b * st.prevX,
            avgY := a * st.avgY + b * st.prevY,
            prevX := X, prevY := Y }

/-- The detector that claim C3 describes, written from the words of the
spec: same wiring as GetFixationDataListCore but running the
previous-frame distance rule of fixationLoopStepSpecPrevFrame. -/
def GetFixationDataListSpecPrevFrame (now : Int) (fixmap : List (String × Int))
    (frames : List OFrame) : List FixateData :=
  let max_distance := (fixmap.lookup "max distance").getD 50
  let min_msec := (fixmap.lookup "min msec").getD 100
  let prev0 : ℚ × ℚ × Int :=
    match frames.head? with
    | none => (-1000000, -1000000, now)
    | some none => (-1000000, -1000000, now)
    | some (some fr) =>
      match fr.avg with
      | none => (-1000000, -1000000, fr.goTime)
      | some p => (p.x, p.y, fr.goTime)
  let s0 : DetState :=
    { result := [], prevX := prev0.1, prevY := prev0.2.1,
      prevTime := prev0.2.2, curTime := prev0.2.2,
      checkTime := prev0.2.2 + min_msec,
      avgX := prev0.1, avgY := prev0.2.1, fixateCount := 0 }
  let distance2 : ℚ := ((max_distance * max_distance : Int) : ℚ)
  let fin := frames.foldl (fixationLoopStepSpecPrevFrame min_msec distance2) s0
  if fin.fixateCount > 0 ∧ fin.checkTime - fin.curTime < 0 then
    fin.result ++ [⟨fin.avgX, fin.avgY, fin.prevTime⟩]
  else fin.result

/-- The core of GetFixationDataList after the fixation parameter map has
been dereferenced: read the two parameters with their defaults, seed the
state from the front buffer entry, run the loop, then flush a trailing
cluster when its count is positive and its deadline has passed. -/
def GetFixationDataListCore (now : Int) (fixmap : List (String × Int))
    (frames : List OFrame) : List FixateData :=
  let max_distance := (fixmap.lookup "max distance").getD 50
  let min_msec := (fixmap.lookup "min msec").getD 100
  let prev0 : ℚ × ℚ × Int :=
    match frames.head? with
    | none => (-1000000, -1000000, now)
    | some none => (-1000000, -1000000, now)
    | some (some fr) =>
      match fr.avg with
      | none => (-1000000, -1000000, fr.goTime)
      | some p => (p.x, p.y, fr.goTime)
  let s0 : DetState :=
    { result := [], prevX := prev0.1, prevY := prev0.2.1,
      prevTime := prev0.2.2, curTime := prev0.2.2,
      checkTime := prev0.2.2 + min_msec,
      avgX := prev0.1, avgY := prev0.2.1, fixateCount := 0 }
  let distance2 : ℚ := ((max_distance * max_distance : Int) : ℚ)
  let fin := frames.foldl (fixationLoopStep min_msec distance2) s0
  if fin.fixateCount > 0 ∧ fin.checkTime - fin.curTime < 0 then
    fin.result ++ [⟨fin.avgX, fin.avgY, fin.prevTime⟩]
  else fin.result

/-- Outcome of the fixation detector: its event list, or the runtime fault
from dereferencing a nil fixation parameter map pointer. -/
inductive DetectorOutcome where
  | ok (events : List FixateData)
  | nilMapDeref
deriving Repr, DecidableEq

/-- GetFixationDataList: the source immediately dereferences the fixation
field of the check configuration, a *map pointer; when that pointer is nil
the dereference is a runtime fault, before the buffer is even consulted. -/
def GetFixationDataList (now : Int) (fixation : Option (List (String × Int)))
    (frames : List OFrame) : DetectorOutcome :=
  match fixation with
  | none => .nilMapDeref
  | some m => .ok (GetFixationDataListCore now m frames)

/-- The inner target loop body shared by both region checkers: a nil target
is skipped; otherwise the result key for the target name is assigned true
when the point lies in the closed rectangle and false otherwise. -/
def regionStep (x y : ℚ) (res : EyeTrackCheckResult) (tgt : Option EyeTrackCheckPoint) : EyeTrackCheckResult :=
  match tgt with
  | none => res
  | some v =>
    if x ≥ v.x ∧ x ≤ v.x + v.width ∧ y ≥ v.y ∧ y ≤ v.y + v.height then
      fun k => if k = v.name then some true else res k
    else
      fun k => if k = v.name then some false else res k

/-- The frame loop body of ServeEyeTrackCheck: skip nil frames and nil Avg
fields, then frames older than the window, then sentinel frames; a kept
frame runs the target loop at its Avg coordinate. -/
def serveCheckFrameStep (checkTime : Int) (targets : List (Option EyeTrackCheckPoint))
    (res : EyeTrackCheckResult) (entry : OFrame) : EyeTrackCheckResult :=
  match entry with
  | none => res
  | some frame =>
    match frame.avg with
    | none => res
    | some avg =>
      if checkTime - frame.goTime > 0 then res
      else if avg.x ≤ 0 ∧ avg.y ≤ 0 then res
      else targets.foldl (regionStep avg.x avg.y) res

/-- ServeEyeTrackCheck: the raw-frame region check. The request parameter
delta_millisecond (with its 10 second default applied by the caller side)
fixes the window start now - delta; every buffered frame inside the window
reassigns every configured region. -/
def ServeEyeTrackCheck (now delta_millisecond : Int)
    (targets : List (Option EyeTrackCheckPoint)) (frames : List OFrame) : EyeTrackCheckResult :=
  let checkTime := now - delta_millisecond
  frames.foldl (serveCheckFrameStep checkTime targets) emptyCheckResult

/-- The fixation loop body of ServeEyeTrackCheckFixation: skip events older
than the window, then run the target loop at the event coordinate. -/
def serveCheckFixStep (checkTime : Int) (targets : List (Option EyeTrackCheckPoint))
    (res : EyeTrackCheckResult) (data : FixateData) : EyeTrackCheckResult :=
  if checkTime - data.goTime > 0 then res
  else targets.foldl (regionStep data.x data.y) res

/-- Outcome of the fixation-variant region check. -/
inductive CheckOutcome where
  | ok (res : EyeTrackCheckResult)
  | nilMapDeref

/-- ServeEyeTrackCheckFixation: the fixation-variant region check, built on
GetFixationDataList and therefore inheriting its nil-map fault. -/
def ServeEyeTrackCheckFixation (now delta_millisecond : Int)
    (fixation : Option (List (String × Int)))
    (targets : List (Option EyeTrackCheckPoint)) (frames : List OFrame) : CheckOutcome :=
  match GetFixationDataList now fixation frames with
  | .nilMapDeref => .nilMapDeref
  | .ok dataList =>
    let checkTime := now - delta_millisecond
    .ok (dataList.foldl (serveCheckFixStep checkTime targets) emptyCheckResult)

/-- One brush stamp of the heat-map renderer: the destination rectangle of
one draw.Draw call, centered on a gaze point. -/
structure StampRect where
  x0 : ℚ
  y0 : ℚ
  x1 : ℚ
  y1 : ℚ
deriving Repr, DecidableEq

/-- The frame loop body of CreateHeatMapImage: skip nil frames, nil Avg
fields and sentinel frames; a kept frame stamps a 100 by 100 brush
rectangle centered on its Avg coordinate. -/
def heatMapStampStep (acc : List StampRect) (entry : OFrame) : List StampRect :=
  match entry with
  | none => acc
  | some frame =>
    match frame.avg with
    | none => acc
    | some avg =>
      if avg.x ≤ 0 ∧ avg.y ≤ 0 then acc
      else
        let drawWidth : ℚ := 100
        let drawHeight : ℚ := 100
        acc ++ [⟨avg.x - drawWidth / 2, avg.y - drawHeight / 2,
                 avg.x + drawWidth / 2, avg.y + drawHeight / 2⟩]

/-- CreateHeatMapImage, abstracted to the ordered list of brush stamps it
composites: the pixel blending itself is done by the external image
library and no claim depends on it, only on which frames produce stamps. -/
def CreateHeatMapImage (frames : List OFrame) : List StampRect :=
  frames.foldl heatMapStampStep []

/-- A dynamically typed JSON value out of the generic response values map. -/
inductive JsonValue where
  | num (n : Int)
  | bool (b : Bool)
  | str (s : String)
deriving Repr, DecidableEq

/-- The generic response message (struct ResponseMessage). -/
structure ResponseMessage where
  category : String := ""
  request : String := ""
  statusCode : Int := 0
  values : List (String × JsonValue) := []
deriving Repr, DecidableEq

/-- Outcome of ConvInterfaceToInt64: the converted value, a returned error,
or the runtime fault of the unchecked float64 type assertion. -/
inductive Int64Result where
  | ok (n : Int)
  | err (msg : String)
  | panicked
deriving Repr, DecidableEq

/-- ConvInterfaceToInt64: a missing key is a returned error, while a present
value of any non-numeric type hits the unchecked type assertion. -/
def ConvInterfaceToInt64 (v : List (String × JsonValue)) (name : String) : Int64Result :=
  match v.lookup name with
  | none => .err ("value has no field " ++ name)
  | some (.num n) => .ok n
  | some _ => .panicked

/-- Outcome of GetServerStatus. -/
inductive StatusResult where
  | ok (calibrated : Bool) (interval : Int)
  | err (msg : String)
  | panicked
deriving Repr, DecidableEq

/-- GetServerStatus: validate the status response in source order. The
screen and framerate fields are converted and stored on the connection;
the calibration flag is read through an unchecked bool type assertion at
the very end, after every numeric conversion. -/
def GetServerStatus (resp : Except Unit ResponseMessage) : StatusResult :=
  match resp with
  | .error _ => .err "request failed"
  | .ok r =>
    if r.statusCode ≠ 200 then .err "server response code is not 200"
    else
      match r.values.lookup "iscalibrated" with
      | none => .err "server response has no iscalibrated field"
      | some iscal =>
        match ConvInterfaceToInt64 r.values "heartbeatinterval" with
        | .err m => .err m
        | .panicked => .panicked
        | .ok interval =>
          if interval ≤ 0 then .err "server return heartbeatinterval is invalid"
          else
            match ConvInterfaceToInt64 r.values "screenresw" with
            | .err m => .err m
            | .panicked => .panicked
            | .ok _w =>
              match ConvInterfaceToInt64 r.values "screenresh" with
              | .err m => .err m
              | .panicked => .panicked
              | .ok _h =>
                match ConvInterfaceToInt64 r.values "framerate" with
                | .err m => .err m
                | .panicked => .panicked
                | .ok _fr =>
                  match iscal with
                  | .bool b => .ok b interval
                  | _ => .panicked

/-- Outcome of CreateServerConnection. -/
inductive ConnResult where
  | connected (interval : Int)
  | connErr (msg : String)
  | panicked
deriving Repr, DecidableEq

/-- CreateServerConnection: dial, run GetServerStatus on the handshake
response, reject an uncalibrated tracker, then start the background tasks
(external effects, not modelled) and hand back the connection. -/
def CreateServerConnection (socketOk : Bool) (resp : Except Unit ResponseMessage) : ConnResult :=
  if socketOk = false then .connErr "dial failed"
  else
    match GetServerStatus resp with
    | .err m => .connErr m
    | .panicked => .panicked
    | .ok calibrated interval =>
      if calibrated = false then .connErr "Server is not calibrated"
      else .connected interval

/-- A frame is a sentinel when both Avg coordinates are nonpositive: the
marker for "no valid gaze". -/
def IsSentinelFrame (fr : Frame) : Prop :=
  ∃ p, fr.avg = some p ∧ p.x ≤ 0 ∧ p.y ≤ 0

/-- A buffer entry that is a nil pointer or has a nil Avg field. -/
def IsNilEntry (e : OFrame) : Prop :=
  e = none ∨ ∃ fr, e = some fr ∧ fr.avg = none

/-- A buffer entry skipped by every query loop: nil, nil Avg, or sentinel. -/
def IsSkipEntry (e : OFrame) : Prop :=
  IsNilEntry e ∨ ∃ fr, e = some fr ∧ IsSentinelFrame fr

/-- An entry that stays within the squared distance threshold of the anchor
point (px, py) whenever the detector loop actually processes it. -/
def InClusterEntry (px py distance2 : ℚ) (e : OFrame) : Prop :=
  ∀ fr p, e = some fr → fr.avg = some p → ¬(p.x ≤ 0 ∧ p.y ≤ 0) →
    (px - p.x) * (px - p.x) + (py - p.y) * (py - p.y) ≤ distance2

/-- The named region used by the concrete region-check inputs. -/
def logoTarget : EyeTrackCheckPoint := ⟨0, 0, 100, 100, "logo"⟩

/-- A valid frame inside logoTarget, received at 1000 ms. -/
def frameInside : Frame := { avg := some ⟨10, 10⟩, goTime := 1000 }

/-- A valid frame outside logoTarget, received later at 2000 ms. -/
def frameOutside : Frame := { avg := some ⟨500, 500⟩, goTime := 2000 }

/-- A heartbeat echo as seen by the ingestion loop. -/
def heartbeatMsg : OneFrameMessage := { category := "heartbeat", statusCode := 200 }

/-- Five valid frames drifting right by 40 px each step: every step is
within 50 px of the previous frame but the third frame is 80 px from the
first. -/
def driftBuf : List OFrame :=
  [some { avg := some ⟨100, 100⟩, goTime := 0 },
   some { avg := some ⟨140, 100⟩, goTime := 50 },
   some { avg := some ⟨180, 100⟩, goTime := 100 },
   some { avg := some ⟨220, 100⟩, goTime := 150 },
   some { avg := some ⟨260, 100⟩, goTime := 200 }]

/-- First frame of a three-frame cluster at (100, 100). -/
def cg1 : Frame := { avg := some ⟨100, 100⟩, goTime := 0 }

/-- Second frame of that cluster, at (104, 104). -/
def cg2 : Frame := { avg := some ⟨104, 104⟩, goTime := 50 }

/-- Third frame of that cluster, at (100, 104). -/
def cg3 : Frame := { avg := some ⟨100, 104⟩, goTime := 150 }

/-- The last frame belonging to the cluster inside clusterBuf. -/
def clusterLast : Frame := { avg := some ⟨120, 100⟩, goTime := 150 }

/-- A three-frame cluster starting at time 0 followed by a far-away frame
at time 200 that breaks it. -/
def clusterBuf : List OFrame :=
  [some { avg := some ⟨100, 100⟩, goTime := 0 },
   some { avg := some ⟨110, 100⟩, goTime := 50 },
   some clusterLast,
   some { avg := some ⟨500, 500⟩, goTime := 200 }]

/-- A sentinel frame at (0, 0), received at time 0. -/
def sentinelFrame0 : Frame := { avg := some ⟨0, 0⟩, goTime := 0 }

/-- Four valid frames at (30, 30), all within 50 px of the origin. -/
def glanceBuf : List OFrame :=
  [some { avg := some ⟨30, 30⟩, goTime := 10 },
   some { avg := some ⟨30, 30⟩, goTime := 50 },
   some { avg := some ⟨30, 30⟩, goTime := 150 },
   some { avg := some ⟨30, 30⟩, goTime := 200 }]

/-- A frame whose Avg pointer is nil, received at time 0. -/
def nilAvgFrame : Frame := { goTime := 0 }

/-- A two-frame cluster followed by a breaking frame: whether its event is
emitted depends on how the cluster count was seeded by the front entry. -/
def shiftBuf : List OFrame :=
  [some { avg := some ⟨100, 100⟩, goTime := 10 },
   some { avg := some ⟨105, 100⟩, goTime := 150 },
   some { avg := some ⟨900, 900⟩, goTime := 200 }]

/-- A status response that is well formed on every field the claim lists
(status 200, calibrated true, all four numeric fields present and numeric)
but reports a zero heartbeat interval. -/
def zeroIntervalResponse : ResponseMessage :=
  { statusCode := 200,
    values := [("iscalibrated", JsonValue.bool true),
               ("heartbeatinterval", JsonValue.num 0),
               ("screenresw", JsonValue.num 1920),
               ("screenresh", JsonValue.num 1080),
               ("framerate", JsonValue.num 30)] }

/-- Buffer frame A of the capacity example. -/
def bufFrameA : Frame := { goTime := 1 }

/-- Buffer frame B of the capacity example. -/
def bufFrameB : Frame := { goTime := 2 }

/-- Buffer frame C of the capacity example. -/
def bufFrameC : Frame := { goTime := 3 }

/-- Buffer frame D of the capacity example. -/
def bufFrameD : Frame := { goTime := 4 }

/-- A detector state whose anchor sits at (100, 100) with one cluster
member folded in. -/
def anchorSt : DetState :=
  { result := [], prevX := 100, prevY := 100, prevTime := 0, curTime := 0,
    checkTime := 100, avgX := 100, avgY := 100, fixateCount := 1 }

/-- A frame 10 px from the anchor of anchorSt. -/
def nearFrame : Frame := { avg := some ⟨110, 100⟩, goTime := 50 }

/-- A frame 100 px from the anchor of anchorSt, past its deadline. -/
def farFrame : Frame := { avg := some ⟨200, 100⟩, goTime := 200 }

/-- First frame of the witness cluster, at (100, 100), time 0. -/
def wFirst : Frame := { avg := some ⟨100, 100⟩, goTime := 0 }

/-- Middle frame of the witness cluster, at (110, 100), time 50. -/
def wMid : Frame := { avg := some ⟨110, 100⟩, goTime := 50 }

/-- A buffer holding only skipped entries: a nil pointer, a frame with a
nil Avg and a sentinel frame. -/
def skipOnlyBuf : List OFrame := [none, some nilAvgFrame, some sentinelFrame0]

/-- Claim C1, evidence of the code bug: with a valid in-window frame at
(10, 10) inside region logo followed by a later valid in-window frame at
(500, 500) outside it, ServeEyeTrackCheck reports logo as false, although
with the inside frame alone it reports true. Each processed frame
reassigns every region, so the last valid in-window frame decides the
result, while the claim (and the comment on the source function: a single
glance suffices) requires true as soon as any frame fell inside. -/
theorem serveEyeTrackCheck_last_frame_overwrites :
    ServeEyeTrackCheck 2000 10000 [some logoTarget]
        [some frameInside, some frameOutside] "logo" = some false
    ∧ ServeEyeTrackCheck 2000 10000 [some logoTarget] [some frameInside] "logo" = some true := by
  constructor <;>
  · simp only [ServeEyeTrackCheck, serveCheckFrameStep, regionStep, emptyCheckResult,
      logoTarget, frameInside, frameOutside, List.foldl]
    norm_num

/-- Claim C2, counterexample: a heartbeat echo is classified discardable,
yet one pass of the ingestion loop body over it starting from the empty
buffer grows the buffer to length one by appending a nil entry, so a
discarded message does change the contents and length of the buffer. -/
theorem ingest_discard_appends_nil_entry :
    ingestStep 7 5 (Except.ok heartbeatMsg) [] = .ok [none]
    ∧ ([none] : List OFrame).length ≠ ([] : List OFrame).length := by
  exact ⟨by decide, by decide⟩

/-- Claim C3, counterexample: on driftBuf every consecutive pair of frames
is 40 px apart, below the 50 px default threshold, so a detector that
measured distance to the immediately preceding valid frame would keep one
cluster alive for 200 ms and emit an event, as
GetFixationDataListSpecPrevFrame (written from the words of the claim)
does; the source detector instead emits nothing there, because it measures
distance to the point that started the cluster. -/
theorem fixation_distance_not_prev_frame :
    GetFixationDataListCore 0 [] driftBuf = []
    ∧ GetFixationDataListSpecPrevFrame 0 [] driftBuf = [⟨140, 100, 0⟩] := by
  constructor <;>
  · simp only [GetFixationDataListCore, GetFixationDataListSpecPrevFrame, fixationLoopStep,
      fixationLoopStepSpecPrevFrame, driftBuf, List.foldl, List.head?, List.lookup]
    norm_num

/-- Claim C4, evidence of the code bug: a cluster of frames at (100, 100),
(104, 104) and (100, 104) yields the centroid (100, 100), exactly the
first point: the fold adds b * PrevX rather than b * X, so the new frame
coordinates never enter the average and it stays at the anchor, where the
stated online running mean would give (101, 102). -/
theorem fixation_centroid_ignores_new_samples :
    GetFixationDataListCore 0 [] [some cg1, some cg2, some cg3] = [⟨100, 100, 0⟩]
    ∧ cg2.avg = some ⟨104, 104⟩ ∧ cg3.avg = some ⟨100, 104⟩ := by
  refine ⟨?_, rfl, rfl⟩
  simp only [GetFixationDataListCore, fixationLoopStep, cg1, cg2, cg3, List.foldl,
    List.head?, List.lookup]
  norm_num

/-- Claim C6, counterexample: zeroIntervalResponse satisfies every
condition of the claim for a successful connection (status 200, calibrated
true, all four numeric fields present and numeric), yet
CreateServerConnection returns an error because the source additionally
rejects a nonpositive heartbeat interval. -/
theorem createServerConnection_zero_interval_rejected :
    CreateServerConnection true (Except.ok zeroIntervalResponse)
        = .connErr "server return heartbeatinterval is invalid"
    ∧ zeroIntervalResponse.statusCode = 200
    ∧ zeroIntervalResponse.values.lookup "iscalibrated" = some (JsonValue.bool true)
    ∧ zeroIntervalResponse.values.lookup "heartbeatinterval" = some (JsonValue.num 0)
    ∧ zeroIntervalResponse.values.lookup "screenresw" = some (JsonValue.num 1920)
    ∧ zeroIntervalResponse.values.lookup "screenresh" = some (JsonValue.num 1080)
    ∧ zeroIntervalResponse.values.lookup "framerate" = some (JsonValue.num 30) := by
  refine ⟨rfl, rfl, rfl, rfl, rfl, rfl, rfl⟩

/-- Claim C7, counterexample: clusterBuf holds one cluster whose frames are
received at 0, 50 and 150 ms before a far frame at 200 ms breaks it; the
emitted event carries time 0, the timestamp of the first frame of the
cluster, not 150, the timestamp of the last frame belonging to it. -/
theorem fixation_event_time_not_last_frame :
    GetFixationDataListCore 0 [] clusterBuf = [⟨100, 100, 0⟩]
    ∧ clusterLast.goTime = 150 ∧ (0 : Int) ≠ 150 := by
  refine ⟨?_, rfl, by decide⟩
  simp only [GetFixationDataListCore, fixationLoopStep, clusterBuf, clusterLast, List.foldl,
    List.head?, List.lookup]
  norm_num

/-- Claim C8, counterexample: pushing the sentinel frame (0, 0) in front of
glanceBuf changes the detector output from an event at (30, 30) stamped 10
to an event at (0, 0) stamped 0: the initialisation of the detector reads
the front frame without applying the sentinel rule, so the sentinel
coordinates become the cluster anchor and its centroid. -/
theorem sentinel_front_frame_contributes :
    GetFixationDataListCore 0 [] (some sentinelFrame0 :: glanceBuf) = [⟨0, 0, 0⟩]
    ∧ GetFixationDataListCore 0 [] glanceBuf = [⟨30, 30, 10⟩]
    ∧ sentinelFrame0.avg = some ⟨0, 0⟩ := by
  refine ⟨?_, ?_, rfl⟩ <;>
  · simp only [GetFixationDataListCore, fixationLoopStep, sentinelFrame0, glanceBuf,
      List.foldl, List.head?, List.lookup]
    norm_num

/-- Claim C9, counterexample: with an absent fixation parameter map the
fixation detector does not return an empty result, it dereferences a nil
map pointer, even on the empty buffer; the fixation-variant region check
inherits the same fault. -/
theorem detector_nil_fixmap_faults :
    GetFixationDataList 0 none [] = .nilMapDeref
    ∧ ServeEyeTrackCheckFixation 0 0 none [] [] = .nilMapDeref := by
  exact ⟨rfl, rfl⟩

/-- Claim C10, counterexample: a nil-Avg entry placed at the front of
shiftBuf suppresses the event the detector otherwise emits: the init block
seeds the previous point and times from the front entry, so the first
valid frame then opens the cluster with count 0 instead of count 1 and the
break condition count greater than one fails. The entry has no coordinate,
yet it changes the output. -/
theorem nil_avg_front_entry_changes_detector :
    GetFixationDataListCore 0 [] (some nilAvgFrame :: shiftBuf) = []
    ∧ GetFixationDataListCore 0 [] shiftBuf = [⟨100, 100, 10⟩]
    ∧ nilAvgFrame.avg = none := by
  refine ⟨?_, ?_, rfl⟩ <;>
  · simp only [GetFixationDataListCore, fixationLoopStep, nilAvgFrame, shiftBuf,
      List.foldl, List.head?, List.lookup]
    norm_num

/-- An append below capacity keeps every element and adds the new one at
the back. -/
theorem AddOneFrame_spare (f : OFrame) (buf : List OFrame) (n : Int)
    (h : ¬ (buf.length : Int) ≥ n) : AddOneFrame f buf n = some (buf ++ [f]) := by
  simp [AddOneFrame, h]

/-- An append at or above capacity on a nonempty buffer removes exactly the
front element before adding the new one at the back. -/
theorem AddOneFrame_full (f b : OFrame) (t : List OFrame) (n : Int)
    (h : (((b :: t).length : Int)) ≥ n) : AddOneFrame f (b :: t) n = some (t ++ [f]) := by
  unfold AddOneFrame
  rw [if_pos h]

/-- With a positive capacity, AddOneFrame never faults and acts as tail
replacement at capacity and plain append below it. -/
theorem AddOneFrame_pos (f : OFrame) (buf : List OFrame) (n : Int) (hn : 1 ≤ n) :
    AddOneFrame f buf n
      = some (if (buf.length : Int) ≥ n then buf.tail ++ [f] else buf ++ [f]) := by
  by_cases h : (buf.length : Int) ≥ n
  · match buf with
    | [] =>
      exfalso
      simp only [List.length_nil, Nat.cast_zero] at h
      omega
    | b :: t =>
      rw [AddOneFrame_full f b t n h, if_pos h]
      rfl
  · rw [AddOneFrame_spare f buf n h, if_neg h]

/-- Pushing a list of frames into a buffer already within a positive
capacity n keeps exactly the last n.toNat elements of the combined
sequence: the result is the suffix obtained by dropping the overflow. -/
theorem pushAllFrames_eq_drop (n : Int) (hn : 1 ≤ n) (l : List OFrame) :
    ∀ buf : List OFrame, (buf.length : Int) ≤ n →
      pushAllFrames n l buf = some ((buf ++ l).drop (buf.length + l.length - n.toNat)) := by
  induction l with
  | nil =>
    intro buf hbuf
    have h0 : buf.length - n.toNat = 0 := by omega
    simp [pushAllFrames, h0]
  | cons f rest ih =>
    intro buf hbuf
    by_cases hfull : (buf.length : Int) ≥ n
    · match buf with
      | [] =>
        exfalso
        simp only [List.length_nil, Nat.cast_zero] at hfull
        omega
      | b :: t =>
        have hm : t.length + 1 = n.toNat := by
          have : ((b :: t).length : Int) = n := le_antisymm hbuf hfull
          simp only [List.length_cons] at this
          omega
        have ht : ((t ++ [f]).length : Int) ≤ n := by
          simp only [List.length_append, List.length_cons, List.length_nil]
          push_cast
          omega
        rw [pushAllFrames, AddOneFrame_full f b t n hfull]
        show pushAllFrames n rest (t ++ [f]) = _
        rw [ih (t ++ [f]) ht]
        have hidx1 : (t ++ [f]).length + rest.length - n.toNat = rest.length := by
          simp only [List.length_append, List.length_cons, List.length_nil]
          omega
        have hidx2 : (b :: t).length + (f :: rest).length - n.toNat = rest.length + 1 := by
          simp only [List.length_cons]
          omega
        rw [hidx1, hidx2, List.append_assoc, List.singleton_append, List.cons_append,
          List.drop_succ_cons]
    · have ht : ((buf ++ [f]).length : Int) ≤ n := by
        simp only [List.length_append, List.length_cons, List.length_nil]
        push_cast
        push_cast at hfull
        omega
      rw [pushAllFrames, AddOneFrame_spare f buf n hfull]
      show pushAllFrames n rest (buf ++ [f]) = _
      rw [ih (buf ++ [f]) ht]
      have hidx : (buf ++ [f]).length + rest.length - n.toNat
          = buf.length + (f :: rest).length - n.toNat := by
        simp only [List.length_append, List.length_cons, List.length_nil]
        omega
      rw [hidx, List.append_assoc, List.singleton_append]

/-- Claim C5: starting from the empty buffer with capacity n at least one,
any sequence of appends through AddOneFrame leaves exactly the most recent
frames: the final buffer is the suffix of the pushed sequence after
dropping the overflow, so the length never exceeds the capacity, an append
at capacity removes exactly the oldest (front) element, and the surviving
elements keep their original order. -/
theorem addOneFrame_capacity_evicts_oldest (l : List OFrame) (n : Int) (hn : 1 ≤ n) :
    pushAllFrames n l [] = some (l.drop (l.length - n.toNat))
    ∧ (l.drop (l.length - n.toNat)).length ≤ n.toNat := by
  constructor
  · have h := pushAllFrames_eq_drop n hn l []
      (by simp only [List.length_nil, Nat.cast_zero]; omega)
    simpa using h
  · simp only [List.length_drop]
    omega

/-- Witness for addOneFrame_capacity_evicts_oldest: capacity 3 and the four
frames A, B, C, D pushed in order leave the buffer holding B, C, D. -/
theorem addOneFrame_capacity_evicts_oldest_witness :
    pushAllFrames 3 [some bufFrameA, some bufFrameB, some bufFrameC, some bufFrameD] []
      = some [some bufFrameB, some bufFrameC, some bufFrameD] := by
  have h := (addOneFrame_capacity_evicts_oldest
    [some bufFrameA, some bufFrameB, some bufFrameC, some bufFrameD] 3 (by decide)).1
  simpa using h

/-- Claim C2 as amended: one pass of the ingestion loop body terminates
the task exactly on a decode error, leaving the buffer untouched; a
message classified discardable (non-success status code, heartbeat echo,
or missing frame field) does NOT terminate the task but still appends a
nil entry to the buffer, growing it by one and evicting the oldest entry
at capacity; only a genuine frame appends a data entry, with the local
clock stamped into its GoTime. -/
theorem ingestStep_classification (now n : Int) (msg : Except Unit OneFrameMessage)
    (buf : List OFrame) (hn : 1 ≤ n) :
    (∀ u, msg = .error u → ingestStep now n msg buf = .decodeErr)
    ∧ (∀ r, msg = .ok r →
        (r.statusCode ≠ 200 ∨ r.category = "heartbeat" ∨ r.values.lookup "frame" = none) →
        ingestStep now n msg buf
          = .ok (if (buf.length : Int) ≥ n then buf.tail ++ [none] else buf ++ [none]))
    ∧ (∀ r fr, msg = .ok r → r.statusCode = 200 → r.category ≠ "heartbeat" →
        r.values.lookup "frame" = some (some fr) →
        ingestStep now n msg buf
          = .ok (if (buf.length : Int) ≥ n then buf.tail ++ [some { fr with goTime := now }]
                 else buf ++ [some { fr with goTime := now }])) := by
  refine ⟨?_, ?_, ?_⟩
  · rintro u rfl
    rfl
  · rintro r rfl hdisc
    have hpull : PullOneFrame now (.ok r) = .frame none := by
      by_cases hs : r.statusCode ≠ 200
      · simp [PullOneFrame, hs]
      · by_cases hc : r.category = "heartbeat"
        · simp [PullOneFrame, hs, hc]
        · have hlook : r.values.lookup "frame" = none := by
            rcases hdisc with h | h | h
            · exact absurd h hs
            · exact absurd h hc
            · exact h
          simp [PullOneFrame, hs, hc, hlook]
    rw [ingestStep, hpull]
    show (match AddOneFrame none buf n with
      | none => IngestOutcome.emptyRemove
      | some b => IngestOutcome.ok b) = _
    rw [AddOneFrame_pos none buf n hn]
  · rintro r fr rfl hs hc hlook
    have hpull : PullOneFrame now (.ok r) = .frame (some { fr with goTime := now }) := by
      simp [PullOneFrame, hs, hc, hlook]
    rw [ingestStep, hpull]
    show (match AddOneFrame (some { fr with goTime := now }) buf n with
      | none => IngestOutcome.emptyRemove
      | some b => IngestOutcome.ok b) = _
    rw [AddOneFrame_pos (some { fr with goTime := now }) buf n hn]

/-- Witness for ingestStep_classification: a heartbeat echo arriving at an
empty buffer of capacity 5 leaves the task alive and the buffer holding
one nil entry. -/
theorem ingestStep_classification_witness :
    ingestStep 7 5 (Except.ok heartbeatMsg) [] = .ok [none] := by
  have h := (ingestStep_classification 7 5 (Except.ok heartbeatMsg) [] (by decide)).2.1
    heartbeatMsg rfl (Or.inr (Or.inl rfl))
  simpa using h

/-- A foldl whose step fixes one element can have that element inserted or
removed without changing its value. -/
theorem foldl_skip_middle {α β : Type} (g : β → α → β) (e : α) (pre post : List α)
    (h : ∀ s : β, g s e = s) (s : β) :
    (pre ++ e :: post).foldl g s = (pre ++ post).foldl g s := by
  rw [List.foldl_append, List.foldl_append, List.foldl_cons, h]

/-- A foldl whose step fixes every element of the list is the identity. -/
theorem foldl_skip_all {α β : Type} (g : β → α → β) (l : List α)
    (h : ∀ e ∈ l, ∀ s : β, g s e = s) (s : β) : l.foldl g s = s := by
  induction l generalizing s with
  | nil => rfl
  | cons e rest ih =>
    rw [List.foldl_cons, h e (List.mem_cons_self e rest)]
    exact ih (fun x hx s₁ => h x (List.mem_cons_of_mem _ hx) s₁) s

/-- The detector loop body leaves the state unchanged on a skipped entry. -/
theorem fixationLoopStep_skip (minMsec : Int) (d2 : ℚ) (st : DetState) (e : OFrame)
    (h : IsSkipEntry e) : fixationLoopStep minMsec d2 st e = st := by
  rcases h with (rfl | ⟨fr, rfl, havg⟩) | ⟨fr, rfl, p, hp, hx, hy⟩
  · rfl
  · simp [fixationLoopStep, havg]
  · simp [fixationLoopStep, hp, hx, hy]

/-- The raw-frame checker loop body leaves the result unchanged on a
skipped entry. -/
theorem serveCheckFrameStep_skip (ct : Int) (targets : List (Option EyeTrackCheckPoint))
    (res : EyeTrackCheckResult) (e : OFrame) (h : IsSkipEntry e) :
    serveCheckFrameStep ct targets res e = res := by
  rcases h with (rfl | ⟨fr, rfl, havg⟩) | ⟨fr, rfl, p, hp, hx, hy⟩
  · rfl
  · simp [serveCheckFrameStep, havg]
  · by_cases htime : ct - fr.goTime > 0 <;> simp [serveCheckFrameStep, hp, htime, hx, hy]

/-- The renderer loop body adds no stamp for a skipped entry. -/
theorem heatMapStampStep_skip (acc : List StampRect) (e : OFrame) (h : IsSkipEntry e) :
    heatMapStampStep acc e = acc := by
  rcases h with (rfl | ⟨fr, rfl, havg⟩) | ⟨fr, rfl, p, hp, hx, hy⟩
  · rfl
  · simp [heatMapStampStep, havg]
  · simp [heatMapStampStep, hp, hx, hy]

/-- Claim C9 as amended: with the fixation parameter map present, every
query completes with an empty result on any buffer made only of nil
entries, nil-Avg frames and sentinel frames, the empty buffer included;
the only failure is the nil-map dereference of the counterexample. -/
theorem queries_empty_on_skip_buffers (now delta : Int) (m : List (String × Int))
    (targets : List (Option EyeTrackCheckPoint)) (frames : List OFrame)
    (h : ∀ e ∈ frames, IsSkipEntry e) :
    GetFixationDataList now (some m) frames = .ok []
    ∧ (∀ k, ServeEyeTrackCheck now delta targets frames k = none)
    ∧ CreateHeatMapImage frames = [] := by
  refine ⟨?_, ?_, ?_⟩
  · simp only [GetFixationDataList, GetFixationDataListCore]
    rw [foldl_skip_all _ _ (fun e he s => fixationLoopStep_skip _ _ s e (h e he))]
    simp
  · intro k
    simp only [ServeEyeTrackCheck]
    rw [foldl_skip_all _ _ (fun e he s => serveCheckFrameStep_skip _ _ s e (h e he))]
    rfl
  · simp only [CreateHeatMapImage]
    rw [foldl_skip_all _ _ (fun e he s => heatMapStampStep_skip s e (h e he))]

/-- Witness for queries_empty_on_skip_buffers: a buffer holding a nil
entry, a nil-Avg frame and a sentinel gives the empty event list, an empty
result map and no stamps. -/
theorem queries_empty_on_skip_buffers_witness :
    GetFixationDataList 0 (some []) skipOnlyBuf = .ok []
    ∧ ServeEyeTrackCheck 0 0 [some logoTarget] skipOnlyBuf "logo" = none
    ∧ CreateHeatMapImage skipOnlyBuf = [] := by
  have h := queries_empty_on_skip_buffers 0 0 [] [some logoTarget] skipOnlyBuf (by
    intro e he
    simp only [skipOnlyBuf, List.mem_cons, List.not_mem_nil, or_false] at he
    rcases he with rfl | rfl | rfl
    · exact Or.inl (Or.inl rfl)
    · exact Or.inl (Or.inr ⟨nilAvgFrame, rfl, rfl⟩)
    · exact Or.inr ⟨sentinelFrame0, rfl, ⟨0, 0⟩, rfl, le_refl 0, le_refl 0⟩)
  exact ⟨h.1, h.2.1 "logo", h.2.2⟩

/-- Claim C8 as amended: a sentinel frame is skipped outright by the
region checker and the heat-map renderer wherever it sits in the buffer,
and by the fixation detector whenever it is not the front entry; a
sentinel at the front still seeds the detector initial anchor and times,
which is what the counterexample exhibits. -/
theorem sentinel_skipped_except_detector_front (now delta : Int)
    (m : List (String × Int)) (targets : List (Option EyeTrackCheckPoint))
    (pre post : List OFrame) (fr : Frame) (hfr : IsSentinelFrame fr) :
    (∀ k, ServeEyeTrackCheck now delta targets (pre ++ some fr :: post) k
        = ServeEyeTrackCheck now delta targets (pre ++ post) k)
    ∧ CreateHeatMapImage (pre ++ some fr :: post) = CreateHeatMapImage (pre ++ post)
    ∧ (pre ≠ [] → GetFixationDataList now (some m) (pre ++ some fr :: post)
        = GetFixationDataList now (some m) (pre ++ post)) := by
  have hskip : IsSkipEntry (some fr) := Or.inr ⟨fr, rfl, hfr⟩
  refine ⟨?_, ?_, ?_⟩
  · intro k
    simp only [ServeEyeTrackCheck]
    rw [foldl_skip_middle _ _ _ _ (fun s => serveCheckFrameStep_skip _ _ s _ hskip)]
  · simp only [CreateHeatMapImage]
    rw [foldl_skip_middle _ _ _ _ (fun s => heatMapStampStep_skip s _ hskip)]
  · intro hpre
    match pre, hpre with
    | p0 :: pre', _ =>
      simp only [GetFixationDataList, GetFixationDataListCore, List.cons_append,
        List.head?_cons, List.foldl_cons]
      rw [foldl_skip_middle _ _ _ _ (fun s => fixationLoopStep_skip _ _ s _ hskip)]

/-- Witness for sentinel_skipped_except_detector_front: a sentinel behind
one valid frame changes neither the region check nor the detector. -/
theorem sentinel_skipped_except_detector_front_witness :
    ServeEyeTrackCheck 0 0 [some logoTarget] ([some wFirst] ++ some sentinelFrame0 :: []) "logo"
      = ServeEyeTrackCheck 0 0 [some logoTarget] ([some wFirst] ++ []) "logo"
    ∧ GetFixationDataList 0 (some []) ([some wFirst] ++ some sentinelFrame0 :: [])
      = GetFixationDataList 0 (some []) ([some wFirst] ++ []) := by
  have h := sentinel_skipped_except_detector_front 0 0 [] [some logoTarget]
    [some wFirst] [] sentinelFrame0 ⟨⟨0, 0⟩, rfl, le_refl 0, le_refl 0⟩
  exact ⟨h.1 "logo", h.2.2 (by simp)⟩

/-- Claim C10 as amended: a nil entry or a nil-Avg frame is skipped before
any coordinate is read and never faults; it leaves the region checker and
the heat-map renderer unchanged wherever it sits, and the fixation
detector whenever it is not the front entry; at the front it still seeds
the detector initial previous point and times, which is what the
counterexample exhibits. -/
theorem nil_entries_skipped_except_detector_front (now delta : Int)
    (m : List (String × Int)) (targets : List (Option EyeTrackCheckPoint))
    (pre post : List OFrame) (e : OFrame) (he : IsNilEntry e) :
    (∀ k, ServeEyeTrackCheck now delta targets (pre ++ e :: post) k
        = ServeEyeTrackCheck now delta targets (pre ++ post) k)
    ∧ CreateHeatMapImage (pre ++ e :: post) = CreateHeatMapImage (pre ++ post)
    ∧ (pre ≠ [] → GetFixationDataList now (some m) (pre ++ e :: post)
        = GetFixationDataList now (some m) (pre ++ post)) := by
  have hskip : IsSkipEntry e := Or.inl he
  refine ⟨?_, ?_, ?_⟩
  · intro k
    simp only [ServeEyeTrackCheck]
    rw [foldl_skip_middle _ _ _ _ (fun s => serveCheckFrameStep_skip _ _ s _ hskip)]
  · simp only [CreateHeatMapImage]
    rw [foldl_skip_middle _ _ _ _ (fun s => heatMapStampStep_skip s _ hskip)]
  · intro hpre
    match pre, hpre with
    | p0 :: pre', _ =>
      simp only [GetFixationDataList, GetFixationDataListCore, List.cons_append,
        List.head?_cons, List.foldl_cons]
      rw [foldl_skip_middle _ _ _ _ (fun s => fixationLoopStep_skip _ _ s _ hskip)]

/-- Witness for nil_entries_skipped_except_detector_front: a nil pointer
entry between two valid frames changes neither the renderer nor the
detector. -/
theorem nil_entries_skipped_except_detector_front_witness :
    CreateHeatMapImage ([some wFirst] ++ none :: [some wMid])
      = CreateHeatMapImage ([some wFirst] ++ [some wMid])
    ∧ GetFixationDataList 0 (some []) ([some wFirst] ++ none :: [some wMid])
      = GetFixationDataList 0 (some []) ([some wFirst] ++ [some wMid]) := by
  have h := nil_entries_skipped_except_detector_front 0 0 [] [] [some wFirst] [some wMid]
    none (Or.inl rfl)
  exact ⟨h.2.1, h.2.2 (by simp)⟩

/-- On a valid frame within the distance threshold of the current anchor,
the loop body takes the fold branch: the anchor point, the cluster start
time, the deadline and the emitted events are untouched; only the count,
the current time and the averages move. -/
theorem fixationLoopStep_fold (minMsec : Int) (d2 : ℚ) (st : DetState) (fr : Frame) (p : Point)
    (hp : fr.avg = some p) (hv : ¬(p.x ≤ 0 ∧ p.y ≤ 0))
    (hclose : (st.prevX - p.x) * (st.prevX - p.x) + (st.prevY - p.y) * (st.prevY - p.y) ≤ d2) :
    fixationLoopStep minMsec d2 st (some fr) =
      { st with
        fixateCount := st.fixateCount + 1, curTime := fr.goTime,
        avgX := (1 - 1 / (1 + ((st.fixateCount + 1 : Nat) : ℚ))) * st.avgX
          + (1 / (1 + ((st.fixateCount + 1 : Nat) : ℚ))) * st.prevX,
        avgY := (1 - 1 / (1 + ((st.fixateCount + 1 : Nat) : ℚ))) * st.avgY
          + (1 / (1 + ((st.fixateCount + 1 : Nat) : ℚ))) * st.prevY } := by
  simp [fixationLoopStep, hp, hv, not_lt.2 hclose]

/-- On a valid frame beyond the distance threshold of the anchor, the loop
body takes the break branch: an event is appended exactly when the
deadline passed and the count exceeds one, stamped with the cluster start
time PrevTime and located at the current averages; the state then
restarts at the breaking frame. -/
theorem fixationLoopStep_break (minMsec : Int) (d2 : ℚ) (st : DetState) (fr : Frame) (p : Point)
    (hp : fr.avg = some p) (hv : ¬(p.x ≤ 0 ∧ p.y ≤ 0))
    (hfar : d2 < (st.prevX - p.x) * (st.prevX - p.x) + (st.prevY - p.y) * (st.prevY - p.y)) :
    fixationLoopStep minMsec d2 st (some fr) =
      { result := if st.checkTime - fr.goTime < 0 ∧ st.fixateCount > 1
          then st.result ++ [⟨st.avgX, st.avgY, st.prevTime⟩] else st.result,
        prevX := p.x, prevY := p.y, prevTime := fr.goTime, curTime := st.curTime,
        checkTime := fr.goTime + minMsec, avgX := p.x, avgY := p.y, fixateCount := 0 } := by
  simp [fixationLoopStep, hp, hv, hfar]

/-- While every processed entry stays within the distance threshold of the
anchor, folding the loop leaves the anchor point, the cluster start time,
the deadline and the emitted events unchanged, and an average sitting on
the anchor stays on the anchor. -/
theorem foldl_inCluster_preserves (minMsec : Int) (d2 : ℚ) (l : List OFrame) :
    ∀ st : DetState, (∀ e ∈ l, InClusterEntry st.prevX st.prevY d2 e) →
      ((l.foldl (fixationLoopStep minMsec d2) st).prevX = st.prevX
      ∧ (l.foldl (fixationLoopStep minMsec d2) st).prevY = st.prevY
      ∧ (l.foldl (fixationLoopStep minMsec d2) st).prevTime = st.prevTime
      ∧ (l.foldl (fixationLoopStep minMsec d2) st).checkTime = st.checkTime
      ∧ (l.foldl (fixationLoopStep minMsec d2) st).result = st.result)
      ∧ (st.avgX = st.prevX → (l.foldl (fixationLoopStep minMsec d2) st).avgX = st.prevX)
      ∧ (st.avgY = st.prevY → (l.foldl (fixationLoopStep minMsec d2) st).avgY = st.prevY) := by
  induction l with
  | nil =>
    intro st h
    exact ⟨⟨rfl, rfl, rfl, rfl, rfl⟩, fun h1 => h1, fun h1 => h1⟩
  | cons e rest ih =>
    intro st h
    have htail : ∀ x ∈ rest, InClusterEntry st.prevX st.prevY d2 x :=
      fun x hx => h x (List.mem_cons_of_mem _ hx)
    rcases e with _ | fr
    · rw [List.foldl_cons, fixationLoopStep_skip _ _ _ _ (Or.inl (Or.inl rfl))]
      exact ih st htail
    · rcases havg : fr.avg with _ | p
      · rw [List.foldl_cons, fixationLoopStep_skip _ _ _ _ (Or.inl (Or.inr ⟨fr, rfl, havg⟩))]
        exact ih st htail
      · by_cases hv : p.x ≤ 0 ∧ p.y ≤ 0
        · rw [List.foldl_cons,
            fixationLoopStep_skip _ _ _ _ (Or.inr ⟨fr, rfl, p, havg, hv.1, hv.2⟩)]
          exact ih st htail
        · have hclose := h (some fr) (List.mem_cons_self _ rest) fr p rfl havg hv
          rw [List.foldl_cons, fixationLoopStep_fold minMsec d2 st fr p havg hv hclose]
          obtain ⟨⟨h1, h2, h3, h4, h5⟩, h6, h7⟩ :=
            ih { st with
                 fixateCount := st.fixateCount + 1, curTime := fr.goTime,
                 avgX := (1 - 1 / (1 + ((st.fixateCount + 1 : Nat) : ℚ))) * st.avgX
                   + (1 / (1 + ((st.fixateCount + 1 : Nat) : ℚ))) * st.prevX,
                 avgY := (1 - 1 / (1 + ((st.fixateCount + 1 : Nat) : ℚ))) * st.avgY
                   + (1 / (1 + ((st.fixateCount + 1 : Nat) : ℚ))) * st.prevY } htail
          refine ⟨⟨h1, h2, h3, h4, h5⟩, ?_, ?_⟩
          · intro hA
            apply h6
            show (1 - 1 / (1 + ((st.fixateCount + 1 : Nat) : ℚ))) * st.avgX
              + (1 / (1 + ((st.fixateCount + 1 : Nat) : ℚ))) * st.prevX = st.prevX
            rw [hA]
            ring
          · intro hA
            apply h7
            show (1 - 1 / (1 + ((st.fixateCount + 1 : Nat) : ℚ))) * st.avgY
              + (1 / (1 + ((st.fixateCount + 1 : Nat) : ℚ))) * st.prevY = st.prevY
            rw [hA]
            ring

/-- Claim C3 as amended: while every processed frame stays within the
distance threshold of the anchor (PrevX, PrevY), the detector loop leaves
the anchor untouched, so the anchor is the first point of the current
cluster; the break decision for a further valid frame compares the
threshold with the squared distance from that first point, not from the
immediately preceding valid frame and not from the centroid. -/
theorem fixation_break_measures_from_cluster_anchor (minMsec : Int) (d2 : ℚ)
    (st : DetState) (l : List OFrame) (g : Frame) (p : Point)
    (hl : ∀ e ∈ l, InClusterEntry st.prevX st.prevY d2 e)
    (hg : g.avg = some p) (hv : ¬(p.x ≤ 0 ∧ p.y ≤ 0)) :
    (l.foldl (fixationLoopStep minMsec d2) st).prevX = st.prevX
    ∧ (l.foldl (fixationLoopStep minMsec d2) st).prevY = st.prevY
    ∧ ((fixationLoopStep minMsec d2
          (l.foldl (fixationLoopStep minMsec d2) st) (some g)).fixateCount = 0
        ↔ d2 < (st.prevX - p.x) * (st.prevX - p.x) + (st.prevY - p.y) * (st.prevY - p.y)) := by
  obtain ⟨⟨h1, h2, h3, h4, h5⟩, h6, h7⟩ := foldl_inCluster_preserves minMsec d2 l st hl
  refine ⟨h1, h2, ?_⟩
  by_cases hfar : d2 < (st.prevX - p.x) * (st.prevX - p.x) + (st.prevY - p.y) * (st.prevY - p.y)
  · rw [fixationLoopStep_break minMsec d2 _ g p hg hv (by rw [h1, h2]; exact hfar)]
    simp [hfar]
  · rw [fixationLoopStep_fold minMsec d2 _ g p hg hv (by rw [h1, h2]; exact not_lt.1 hfar)]
    simp [hfar]

/-- The single near frame stays inside the threshold of the anchor state. -/
theorem nearFrame_inCluster :
    ∀ e ∈ [some nearFrame], InClusterEntry anchorSt.prevX anchorSt.prevY 2500 e := by
  intro e he fr q he1 hq hv
  simp only [List.mem_singleton] at he
  subst he
  injection he1 with he1
  subst he1
  simp only [nearFrame] at hq
  injection hq with hq
  subst hq
  norm_num [anchorSt]

/-- Witness for fixation_break_measures_from_cluster_anchor: from the
anchor (100, 100), after folding a frame at (110, 100), a frame at
(200, 100) is measured against the anchor and breaks the cluster. -/
theorem fixation_break_measures_from_cluster_anchor_witness :
    ([some nearFrame].foldl (fixationLoopStep 100 2500) anchorSt).prevX = anchorSt.prevX
    ∧ ([some nearFrame].foldl (fixationLoopStep 100 2500) anchorSt).prevY = anchorSt.prevY
    ∧ ((fixationLoopStep 100 2500
          ([some nearFrame].foldl (fixationLoopStep 100 2500) anchorSt)
          (some farFrame)).fixateCount = 0
        ↔ (2500 : ℚ) < (anchorSt.prevX - 200) * (anchorSt.prevX - 200)
            + (anchorSt.prevY - 100) * (anchorSt.prevY - 100)) := by
  exact fixation_break_measures_from_cluster_anchor 100 2500 anchorSt [some nearFrame]
    farFrame ⟨200, 100⟩ nearFrame_inCluster rfl (by norm_num)

/-- Claim C7 as amended: an event emitted at a cluster break carries
PrevTime, the timestamp of the frame that STARTED the cluster, unchanged
through every fold, not the timestamp of the last frame of the cluster;
the end-of-pass flush reads the same PrevTime field. -/
theorem fixation_event_time_is_cluster_start (minMsec : Int) (d2 : ℚ)
    (st : DetState) (l : List OFrame) (g : Frame) (p : Point)
    (hl : ∀ e ∈ l, InClusterEntry st.prevX st.prevY d2 e)
    (hg : g.avg = some p) (hv : ¬(p.x ≤ 0 ∧ p.y ≤ 0))
    (hfar : d2 < (st.prevX - p.x) * (st.prevX - p.x) + (st.prevY - p.y) * (st.prevY - p.y))
    (htime : st.checkTime - g.goTime < 0)
    (hcnt : (l.foldl (fixationLoopStep minMsec d2) st).fixateCount > 1) :
    (fixationLoopStep minMsec d2 (l.foldl (fixationLoopStep minMsec d2) st) (some g)).result
      = st.result ++ [⟨(l.foldl (fixationLoopStep minMsec d2) st).avgX,
                       (l.foldl (fixationLoopStep minMsec d2) st).avgY, st.prevTime⟩] := by
  obtain ⟨⟨h1, h2, h3, h4, h5⟩, h6, h7⟩ := foldl_inCluster_preserves minMsec d2 l st hl
  rw [fixationLoopStep_break minMsec d2 _ g p hg hv (by rw [h1, h2]; exact hfar)]
  show (if _ - g.goTime < 0 ∧ _ then _ else _) = _
  rw [h4, if_pos ⟨htime, hcnt⟩, h5, h3]

/-- Witness for fixation_event_time_is_cluster_start: the anchor state
started at time 0, a near frame at time 50 folds in, and the far frame at
time 200 breaks the cluster; the emitted event is stamped 0, the cluster
start time, not 50 and not 200. -/
theorem fixation_event_time_is_cluster_start_witness :
    (fixationLoopStep 100 2500 ([some nearFrame].foldl (fixationLoopStep 100 2500) anchorSt)
        (some farFrame)).result
      = anchorSt.result
        ++ [⟨([some nearFrame].foldl (fixationLoopStep 100 2500) anchorSt).avgX,
             ([some nearFrame].foldl (fixationLoopStep 100 2500) anchorSt).avgY,
             anchorSt.prevTime⟩] := by
  exact fixation_event_time_is_cluster_start 100 2500 anchorSt [some nearFrame] farFrame
    ⟨200, 100⟩ nearFrame_inCluster rfl (by norm_num) (by norm_num [anchorSt])
    (by decide)
    (by
      rw [List.foldl_cons, List.foldl_nil,
        fixationLoopStep_fold 100 2500 anchorSt nearFrame ⟨110, 100⟩ rfl (by norm_num)
          (by norm_num [anchorSt])]
      decide)

/-- ConvInterfaceToInt64 returns a value exactly when the field is present
and numeric. -/
theorem ConvInterfaceToInt64_ok_iff (v : List (String × JsonValue)) (name : String) (n : Int) :
    ConvInterfaceToInt64 v name = .ok n ↔ v.lookup name = some (JsonValue.num n) := by
  unfold ConvInterfaceToInt64
  rcases hl : v.lookup name with _ | j
  · simp
  · cases j <;> simp

/-- The status handshake succeeds exactly on a response with status 200, a
present iscalibrated field read at the end as a boolean, a present,
numeric and positive heartbeatinterval, and present numeric screen and
framerate fields. -/
theorem getServerStatus_ok_iff (resp : Except Unit ResponseMessage) (cal : Bool) (i : Int) :
    GetServerStatus resp = .ok cal i
      ↔ ∃ r, resp = .ok r ∧ r.statusCode = 200
          ∧ r.values.lookup "iscalibrated" = some (JsonValue.bool cal)
          ∧ r.values.lookup "heartbeatinterval" = some (JsonValue.num i) ∧ 0 < i
          ∧ (∃ w, r.values.lookup "screenresw" = some (JsonValue.num w))
          ∧ (∃ h, r.values.lookup "screenresh" = some (JsonValue.num h))
          ∧ (∃ fr, r.values.lookup "framerate" = some (JsonValue.num fr)) := by
  constructor
  · intro h
    rcases resp with u | r
    · exact absurd h (by simp [GetServerStatus])
    · refine ⟨r, rfl, ?_⟩
      unfold GetServerStatus at h
      repeat' split at h
      all_goals simp_all [ConvInterfaceToInt64_ok_iff]
  · rintro ⟨r, rfl, hstatus, hcal, hhb, hip, ⟨w, hw⟩, ⟨ht, hresh⟩, ⟨fr2, hfr⟩⟩
    have hio : ¬ i ≤ 0 := by omega
    simp [GetServerStatus, ConvInterfaceToInt64, hstatus, hcal, hhb, hio, hw, hresh, hfr]

/-- Claim C6 as amended: connecting returns a connection exactly when the
socket opened and the status response has status code 200, an iscalibrated
field equal to the boolean true, a present, numeric and POSITIVE
heartbeatinterval, and present numeric screenresw, screenresh and
framerate fields; every other response yields a returned error or, for an
ill-typed field, the runtime fault of an unchecked type assertion, never a
connection. -/
theorem createServerConnection_success_iff (socketOk : Bool)
    (resp : Except Unit ResponseMessage) :
    (∃ i, CreateServerConnection socketOk resp = .connected i)
      ↔ (socketOk = true ∧ ∃ r, resp = .ok r ∧ r.statusCode = 200
          ∧ r.values.lookup "iscalibrated" = some (JsonValue.bool true)
          ∧ (∃ i, r.values.lookup "heartbeatinterval" = some (JsonValue.num i) ∧ 0 < i)
          ∧ (∃ w, r.values.lookup "screenresw" = some (JsonValue.num w))
          ∧ (∃ h, r.values.lookup "screenresh" = some (JsonValue.num h))
          ∧ (∃ fr, r.values.lookup "framerate" = some (JsonValue.num fr))) := by
  cases socketOk with
  | false =>
    constructor
    · rintro ⟨i, hi⟩
      exact absurd hi (by simp [CreateServerConnection])
    · rintro ⟨hsock, -⟩
      cases hsock
  | true =>
    constructor
    · rintro ⟨i, hi⟩
      unfold CreateServerConnection at hi
      rw [if_neg (by simp)] at hi
      cases hgss : GetServerStatus resp with
      | err m =>
        rw [hgss] at hi
        cases hi
      | panicked =>
        rw [hgss] at hi
        cases hi
      | ok cal i2 =>
        rw [hgss] at hi
        cases cal with
        | false => simp at hi
        | true =>
          have hi2 : i2 = i := by simpa using hi
          subst hi2
          obtain ⟨r, rfl, h200, hcal, hhb, hip, hw, hresh, hfr⟩ :=
            (getServerStatus_ok_iff _ true i2).1 hgss
          exact ⟨rfl, r, rfl, h200, hcal, ⟨i2, hhb, hip⟩, hw, hresh, hfr⟩
    · rintro ⟨-, r, rfl, h200, hcal, ⟨i, hhb, hip⟩, hw, hresh, hfr⟩
      have hgss : GetServerStatus (Except.ok r) = .ok true i :=
        (getServerStatus_ok_iff (Except.ok r) true i).2
          ⟨r, rfl, h200, hcal, hhb, hip, hw, hresh, hfr⟩
      exact ⟨i, by simp [CreateServerConnection, hgss]⟩

end EyeTribe
